import Mathlib

/-!
Shallow embedding of the trading-simulator position lifecycle engine.

Sources embedded here:
- `src/lib/simulator-db.js` : the `SimulatorDB` class (`load`, `getPosition`,
  `getOpenPositions`, `getClosedPositions`, `addPosition`, `updatePosition`,
  `closePosition`, `getStats`).
- `src/api/check-positions.js` (current version, first file section) :
  `getSlippage` and the per-position body of the polling handler loop
  (the slippage-adjusted close correction).
- `src/api/new-signal.js` (fourth file section of `check-positions.js` in the
  source snapshot) : the intake handler that opens a position.

Modelling conventions:
- JS numbers are embedded as rationals (`ℚ`); `Date.now()` timestamps are an
  explicit `now : ℕ` parameter.
- The JS falsy-or default `x || d` on numbers is `jsOr x d` (`0` stands for a
  missing or zero value; `NaN` is not modelled).
- The positions object is an insertion-ordered association list
  `List (String × Position)`; `this.db.positions[k] = v` is `setPos`.
- Network and Telegram I/O is factored out: fetched prices, liquidity and the
  pinned-channel content are explicit inputs; fallible download or JSON parse
  is an `Option` input.
-/

namespace TradingSim

/-- Position lifecycle status: the JS strings `active`, `trailing`, `exited`. -/
inductive PosStatus
  | active
  | trailing
  | exited
deriving DecidableEq, Repr

/-- Exit reason strings passed to `closePosition`: `stop_loss` or `trail`. -/
inductive ExitReason
  | stop_loss
  | trail
deriving DecidableEq, Repr

/-- A position record, as created by `addPosition` and mutated by
`updatePosition` and `closePosition` in `src/lib/simulator-db.js`.
`unrealizedPnL` is absent in the JS object literal until the first open
update writes it; every read guards with `|| 0`, so it is embedded as a
rational initialized to `0`. -/
structure Position where
  status : PosStatus
  entryTime : ℕ
  entryPrice : ℚ
  signalPrice : ℚ
  size : ℚ
  chain : String
  symbol : String
  score : ℚ
  peakPrice : ℚ
  peakTime : ℕ
  trailPrice : Option ℚ
  exitPrice : Option ℚ
  exitTime : Option ℕ
  exitReason : Option ExitReason
  pnl : ℚ
  unrealizedPnL : ℚ
  signalMsgId : Option ℕ
deriving DecidableEq, Repr

/-- The `stats` block of the DB document. `openPositions` is decremented on
close with no lower guard in the JS, so it is embedded as `ℤ`. -/
structure Stats where
  totalTrades : ℕ
  openPositions : ℤ
  closedPositions : ℕ
  totalPnL : ℚ
  winCount : ℕ
  lossCount : ℕ
  startingCapital : ℚ
  peakCapitalDeployed : ℚ
  totalCapitalDeployed : ℚ
  capitalFromProfits : ℚ
deriving DecidableEq, Repr

/-- The per-close record appended to `history` by `closePosition`. -/
structure HistoryEntry where
  address : String
  symbol : String
  chain : String
  entry : ℚ
  exit : ℚ
  pnl : ℚ
  reason : ExitReason
  duration : ℤ
deriving DecidableEq, Repr

/-- The `config` block (fixed at document creation). -/
structure Config where
  positionSize : ℚ
  scoreFilter : ℚ
  trailActivation : ℚ
  trailDistance : ℚ
  stopLoss : ℚ
deriving DecidableEq, Repr

/-- The whole persisted DB document (`this.db`). -/
structure Db where
  version : ℕ
  created : ℕ
  updated : ℕ
  config : Config
  stats : Stats
  positions : List (String × Position)
  history : List HistoryEntry
deriving DecidableEq, Repr

/-- JS numeric `x || d`: the default is taken when `x` is falsy (here: zero). -/
def jsOr (x d : ℚ) : ℚ :=
  if x = 0 then d else x

/-- Lookup `positions[addr]` in the insertion-ordered object. -/
def findPos : List (String × Position) → String → Option Position
  | [], _ => none
  | (k, p) :: rest, addr => if k = addr then some p else findPos rest addr

/-- Assignment `positions[addr] = p`: updates in place when the key exists,
appends at the end otherwise (JS object key-order semantics). -/
def setPos : List (String × Position) → String → Position → List (String × Position)
  | [], addr, p => [(addr, p)]
  | (k, q) :: rest, addr, p =>
      if k = addr then (addr, p) :: rest else (k, q) :: setPos rest addr p

namespace SimulatorDB

/-- `getPosition(tokenAddress)`. -/
def getPosition (db : Db) (tokenAddress : String) : Option Position :=
  findPos db.positions tokenAddress

/-- `getOpenPositions()`: entries whose status is `active` or `trailing`. -/
def getOpenPositions (db : Db) : List (String × Position) :=
  db.positions.filter fun x => x.2.status = .active ∨ x.2.status = .trailing

/-- `getClosedPositions()`: entries whose status is `exited`. -/
def getClosedPositions (db : Db) : List (String × Position) :=
  db.positions.filter fun x => x.2.status = .exited

/-- Result of `updatePosition` / `closePosition`: the JS returns `null`
(embedded as `none`), `{action: closed, reason}` or `{action: update}`.
The `position` field of the JS result object is a live reference to
`db.positions[tokenAddress]`; reads through it are embedded as reads of the
stored record. -/
inductive UpdateResult
  | closed (reason : ExitReason)
  | update
deriving DecidableEq, Repr

/-- `closePosition(tokenAddress, exitPrice, reason)`. -/
def closePosition (db : Db) (tokenAddress : String) (exitPrice : ℚ)
    (reason : ExitReason) (now : ℕ) : Db × Option UpdateResult :=
  match findPos db.positions tokenAddress with
  | none => (db, none)
  | some pos =>
      let pnl : ℚ := (exitPrice / pos.entryPrice - 1) * pos.size
      let pos1 : Position := { pos with
        status := .exited
        exitPrice := some exitPrice
        exitTime := some now
        exitReason := some reason
        pnl := pnl }
      let stats := db.stats
      let stats : Stats := { stats with
        openPositions := stats.openPositions - 1
        closedPositions := stats.closedPositions + 1
        totalPnL := stats.totalPnL + pnl
        winCount := if 0 < pnl then stats.winCount + 1 else stats.winCount
        lossCount := if 0 < pnl then stats.lossCount else stats.lossCount + 1 }
      let rec1 : HistoryEntry := {
        address := tokenAddress
        symbol := pos.symbol
        chain := pos.chain
        entry := pos.entryPrice
        exit := exitPrice
        pnl := pnl
        reason := reason
        duration := (now : ℤ) - (pos.entryTime : ℤ) }
      let hist := db.history ++ [rec1]
      let hist := if 1000 < hist.length then hist.drop (hist.length - 1000) else hist
      ({ db with
          positions := setPos db.positions tokenAddress pos1
          stats := stats
          history := hist },
        some (.closed reason))

/-- The peak-update statement of `updatePosition`: if the current price
exceeds `peakPrice`, record the new peak and its time. -/
def peakStep (pos : Position) (currentPrice : ℚ) (now : ℕ) : Position :=
  if pos.peakPrice < currentPrice then
    { pos with peakPrice := currentPrice, peakTime := now }
  else pos

/-- The trail-activation statement of `updatePosition`: an active position
whose multiple reached `trailActivation` becomes trailing, with the trail
price set from the (already updated) peak. -/
def activateStep (config : Config) (pos : Position) (currentMult : ℚ) : Position :=
  if pos.status = .active ∧ config.trailActivation ≤ currentMult then
    { pos with
      status := .trailing
      trailPrice := some (pos.peakPrice * (1 - config.trailDistance)) }
  else pos

/-- `updatePosition(tokenAddress, currentPrice)`: the price-driven state
machine step (stop-loss check first, then peak update, trail activation,
trail recomputation and trail-hit close, else unrealized PnL refresh). -/
def updatePosition (db : Db) (tokenAddress : String) (currentPrice : ℚ)
    (now : ℕ) : Db × Option UpdateResult :=
  match findPos db.positions tokenAddress with
  | none => (db, none)
  | some pos =>
      if pos.status = .exited then (db, none)
      else
        let config := db.config
        let currentMult := currentPrice / pos.entryPrice
        let stopLoss := jsOr config.stopLoss (1/4)
        if currentMult ≤ 1 - stopLoss then
          closePosition db tokenAddress (pos.entryPrice * (1 - stopLoss)) .stop_loss now
        else
          let pos1 := activateStep config (peakStep pos currentPrice now) currentMult
          if pos1.status = .trailing then
            let tp := pos1.peakPrice * (1 - config.trailDistance)
            let pos2 := { pos1 with trailPrice := some tp }
            if currentPrice ≤ tp then
              closePosition { db with positions := setPos db.positions tokenAddress pos2 }
                tokenAddress tp .trail now
            else
              let pos3 := { pos2 with unrealizedPnL := (currentMult - 1) * pos2.size }
              ({ db with positions := setPos db.positions tokenAddress pos3 }, some .update)
          else
            let pos3 := { pos1 with unrealizedPnL := (currentMult - 1) * pos1.size }
            ({ db with positions := setPos db.positions tokenAddress pos3 }, some .update)

/-- Input object for `addPosition`; numeric `0` encodes a falsy or missing
`signalPrice` or `size` (the JS uses `|| default`). -/
structure SignalData where
  entryPrice : ℚ
  signalPrice : ℚ
  size : ℚ
  chain : String
  symbol : String
  score : ℚ
  signalMsgId : Option ℕ
deriving DecidableEq, Repr

/-- `addPosition(tokenAddress, data)`: inserts a fresh `active` record and
updates the trade and capital counters. -/
def addPosition (db : Db) (tokenAddress : String) (data : SignalData)
    (now : ℕ) : Db :=
  let pos : Position := {
    status := .active
    entryTime := now
    entryPrice := data.entryPrice
    signalPrice := jsOr data.signalPrice data.entryPrice
    size := jsOr data.size db.config.positionSize
    chain := data.chain
    symbol := data.symbol
    score := data.score
    peakPrice := data.entryPrice
    peakTime := now
    trailPrice := none
    exitPrice := none
    exitTime := none
    exitReason := none
    pnl := 0
    unrealizedPnL := 0
    signalMsgId := data.signalMsgId }
  let db := { db with positions := setPos db.positions tokenAddress pos }
  let posSize := jsOr data.size db.config.positionSize
  let stats := db.stats
  let stats := { stats with
    totalTrades := stats.totalTrades + 1
    openPositions := stats.openPositions + 1
    totalCapitalDeployed := stats.totalCapitalDeployed + posSize }
  let db := { db with stats := stats }
  let currentDeployed := (getOpenPositions db).foldl (fun s x => s + x.2.size) (0 : ℚ)
  let stats := if stats.peakCapitalDeployed < currentDeployed then
      { stats with peakCapitalDeployed := currentDeployed } else stats
  let availableProfits := stats.totalPnL
  let stats :=
    if posSize ≤ availableProfits then
      { stats with capitalFromProfits := stats.capitalFromProfits + posSize }
    else
      let fromProfits := max 0 availableProfits
      { stats with
        capitalFromProfits := stats.capitalFromProfits + fromProfits
        startingCapital := stats.startingCapital + (posSize - fromProfits) }
  { db with stats := stats }

/-- The object returned by `getStats()`: the stored stats spread together with
`unrealizedPnL`, an overridden `totalPnL` and `winRate`. The JS formats
`winRate` with `toFixed(1)`; the embedded value is the rational before string
formatting. -/
structure StatsView where
  totalTrades : ℕ
  openPositions : ℤ
  closedPositions : ℕ
  winCount : ℕ
  lossCount : ℕ
  startingCapital : ℚ
  peakCapitalDeployed : ℚ
  totalCapitalDeployed : ℚ
  capitalFromProfits : ℚ
  unrealizedPnL : ℚ
  totalPnL : ℚ
  winRate : ℚ
deriving DecidableEq, Repr

/-- `getStats()`. The reduction over the open positions reads `p.pnl || 0`
(exactly as the source line does), not `p.unrealizedPnL`. -/
def getStats (db : Db) : StatsView :=
  let openPs := getOpenPositions db
  let unrealizedPnL := openPs.foldl (fun s x => s + x.2.pnl) (0 : ℚ)
  { totalTrades := db.stats.totalTrades
    openPositions := db.stats.openPositions
    closedPositions := db.stats.closedPositions
    winCount := db.stats.winCount
    lossCount := db.stats.lossCount
    startingCapital := db.stats.startingCapital
    peakCapitalDeployed := db.stats.peakCapitalDeployed
    totalCapitalDeployed := db.stats.totalCapitalDeployed
    capitalFromProfits := db.stats.capitalFromProfits
    unrealizedPnL := unrealizedPnL
    totalPnL := db.stats.totalPnL + unrealizedPnL
    winRate := if 0 < db.stats.closedPositions then
        (db.stats.winCount : ℚ) / (db.stats.closedPositions : ℚ) * 100
      else 0 }

/-- The fresh document initialized by `load()` when no pinned message exists. -/
def freshDb (now : ℕ) : Db :=
  { version := 1
    created := now
    updated := now
    config := {
      positionSize := 250
      scoreFilter := 3/10
      trailActivation := 3/2
      trailDistance := 1/20
      stopLoss := 3/20 }
    stats := {
      totalTrades := 0
      openPositions := 0
      closedPositions := 0
      totalPnL := 0
      winCount := 0
      lossCount := 0
      startingCapital := 0
      peakCapitalDeployed := 0
      totalCapitalDeployed := 0
      capitalFromProfits := 0 }
    positions := []
    history := [] }

/-- Content of the pinned message of the channel, as `load()` observes it:
either a document attachment (with its file name, and `some db` when download
and JSON parse succeed, `none` when they fail) or a non-document message. -/
inductive PinnedContent
  | document (fileName : String) (content : Option Db)
  | nonDocument
deriving DecidableEq, Repr

/-- Outcome of a successful `load()`: an existing document was loaded, or a
fresh document was initialized (and saved). -/
inductive LoadOutcome
  | loaded (db : Db)
  | freshInit (db : Db)
deriving DecidableEq, Repr

/-- `load()`: reads the pinned message. A correctly named document is
downloaded; on download or parse failure the code logs and falls through to
fresh initialization. A wrongly named document or a non-document pin throws.
No pinned message at all initializes a fresh document. -/
def load (pinned : Option PinnedContent) (now : ℕ) : Except String LoadOutcome :=
  match pinned with
  | some (.document fileName content) =>
      if fileName = "trading-simulator-db.json" then
        match content with
        | some db => .ok (.loaded db)
        | none => .ok (.freshInit (freshDb now))
      else
        .error "Pinned message is not the simulator DB. Please unpin it or re-pin the DB file."
  | some .nonDocument =>
      .error "Pinned message is not the simulator DB. Please unpin it to restore DB access."
  | none => .ok (.freshInit (freshDb now))

end SimulatorDB

/-- `getSlippage(tradeSize, liquidity)` from `src/api/check-positions.js`.
The JS guard `!liquidity || liquidity === 0` is true for `null`, `undefined`
(embedded as `none`) and `0`; otherwise the linear impact `tradeSize /
liquidity` is capped at `0.5`. -/
def getSlippage (tradeSize : ℚ) (liquidity : Option ℚ) : ℚ :=
  match liquidity with
  | none => 0
  | some l => if l = 0 then 0 else min (tradeSize / l) (1/2)

/-- One iteration of the per-position body of the polling handler loop in
`src/api/check-positions.js` (current version), for a position whose market
data was fetched: compute slippage from the position size and the fetched
liquidity, run `updatePosition` at the fetched price, and on a close adjust
the exit retroactively.

In the JS, `result.position` and `dbPos` are the same object
(`db.positions[address]`), and the line
`db.db.stats.totalPnL -= result.position.pnl` runs after
`dbPos.pnl = (realExitPrice / dbPos.entryPrice - 1) * dbPos.size` has already
overwritten that field; the subtracted value is therefore the new
slippage-adjusted pnl, which is embedded here by reading the freshly stored
record. The returned flag is the `dbChanged` marker of the loop. -/
def checkPositionStep (db : Db) (address : String) (price liquidity : ℚ)
    (now : ℕ) : Db × Bool :=
  if price = 0 then (db, false)
  else
    match findPos db.positions address with
    | none => (db, false)
    | some pos =>
        let slippage := getSlippage pos.size (some liquidity)
        let r := SimulatorDB.updatePosition db address price now
        match r.2 with
        | none => (r.1, false)
        | some .update => (r.1, true)
        | some (.closed _) =>
            let realExitPrice := price * (1 - slippage)
            match findPos r.1.positions address with
            | none => (r.1, true)
            | some dbPos =>
                let newPnl := (realExitPrice / dbPos.entryPrice - 1) * dbPos.size
                let dbPos1 := { dbPos with exitPrice := some realExitPrice, pnl := newPnl }
                let db2 := { r.1 with positions := setPos r.1.positions address dbPos1 }
                let stats := db2.stats
                let stats := { stats with totalPnL := stats.totalPnL - dbPos1.pnl }
                let stats := { stats with totalPnL := stats.totalPnL + newPnl }
                ({ db2 with stats := stats }, true)

/-- HTTP result of the new-signal intake handler (network and notification
side effects dropped; only the branch taken is recorded). -/
inductive SignalResult
  | missingFields
  | alreadyOpen
  | previouslyClosed
  | inHistory
  | noEntryPrice
  | opened
deriving DecidableEq, Repr

/-- The new-signal intake handler: rejects a missing token address, refuses
re-entry when the address already has a positions entry (any status) or a
history record, resolves the entry price from the live price with the signal
price as fallback, and otherwise opens the position via `addPosition`.
`livePrice` is the DexScreener fetch result (`0` when unavailable). -/
def newSignal (db : Db) (tokenAddress chain symbol : String)
    (signalPrice score : ℚ) (signalMsgId : Option ℕ) (livePrice : ℚ)
    (now : ℕ) : Db × SignalResult :=
  if tokenAddress = "" then (db, .missingFields)
  else
    match findPos db.positions tokenAddress with
    | some existing =>
        if existing.status ≠ .exited then (db, .alreadyOpen)
        else (db, .previouslyClosed)
    | none =>
        if db.history.any (fun h => h.address = tokenAddress) then (db, .inHistory)
        else
          let entryPrice := if 0 < livePrice then livePrice else signalPrice
          if entryPrice = 0 then (db, .noEntryPrice)
          else
            (SimulatorDB.addPosition db tokenAddress
              { entryPrice := entryPrice
                signalPrice := signalPrice
                size := db.config.positionSize
                chain := chain
                symbol := symbol
                score := score
                signalMsgId := signalMsgId } now,
              .opened)

/-- Sum of the recorded `pnl` over all exited positions of the document. -/
def closedPnlSum (db : Db) : ℚ :=
  (SimulatorDB.getClosedPositions db).foldl (fun s x => s + x.2.pnl) (0 : ℚ)

/-- Modelled from the spec: the aggregate `totalPnL` the spec prescribes for
`getStats` — stored cumulative `stats.totalPnL` plus the sum of the
`unrealizedPnL` of all currently-open positions. Compared against the
source-derived `getStats`. -/
def spec_totalPnL (db : Db) : ℚ :=
  db.stats.totalPnL +
    (SimulatorDB.getOpenPositions db).foldl (fun s x => s + x.2.unrealizedPnL) (0 : ℚ)

/-- A concrete active position: entry 1.00, size 250, opened at time 0. -/
def basePos : Position :=
  { status := .active
    entryTime := 0
    entryPrice := 1
    signalPrice := 1
    size := 250
    chain := "sol"
    symbol := "TOK"
    score := 1/2
    peakPrice := 1
    peakTime := 0
    trailPrice := none
    exitPrice := none
    exitTime := none
    exitReason := none
    pnl := 0
    unrealizedPnL := 0
    signalMsgId := none }

/-- A concrete document holding the single open position `basePos` under the
default config (positionSize 250, trailActivation 1.5, trailDistance 0.05,
stopLoss 0.15). -/
def baseDb : Db :=
  { SimulatorDB.freshDb 0 with positions := [("tok", basePos)] }

/-- Repeated price updates against one address: the event list carries the
price and the timestamp of each poll. -/
def updateMany (db : Db) (addr : String) (evs : List (ℚ × ℕ)) : Db :=
  evs.foldl (fun d e => (SimulatorDB.updatePosition d addr e.1 e.2).1) db

/-- Config of the C4 scenario of the spec: positionSize 250, trailActivation
1.5, trailDistance 0.10, stopLoss 0.15. -/
def scenarioConfig : Config :=
  { positionSize := 250
    scoreFilter := 3/10
    trailActivation := 3/2
    trailDistance := 1/10
    stopLoss := 3/20 }

/-- Document of the C4 scenario: a position opened via `addPosition` at entry
price 1.00 and size 250 under `scenarioConfig`. -/
def scenarioDb : Db :=
  SimulatorDB.addPosition { SimulatorDB.freshDb 0 with config := scenarioConfig } "tok"
    { entryPrice := 1
      signalPrice := 1
      size := 250
      chain := "sol"
      symbol := "TOK"
      score := 1/2
      signalMsgId := none } 0

/-- A trailing position: entry 1.00, peak 2.00, trail price 1.90 (consistent
with trailDistance 0.05 of the default config). -/
def trailingPos : Position :=
  { basePos with status := .trailing, peakPrice := 2, trailPrice := some (19/10) }

/-- A document holding the single trailing position `trailingPos` under the
default config. -/
def trailingDb : Db :=
  { SimulatorDB.freshDb 0 with positions := [("tok", trailingPos)] }

/-- A position record in exited state (closed at 0.85 by stop loss). -/
def exitedPos : Position :=
  { basePos with
    status := .exited
    exitPrice := some (17/20)
    exitTime := some 3
    exitReason := some .stop_loss
    pnl := -(75/2) }

/-- A document holding only the exited position `exitedPos`. -/
def exitedDb : Db :=
  { SimulatorDB.freshDb 0 with positions := [("tok", exitedPos)] }

section StatusSimp

@[simp] lemma active_ne_exited : (PosStatus.active = PosStatus.exited) = False := by
  simp

@[simp] lemma active_ne_trailing : (PosStatus.active = PosStatus.trailing) = False := by
  simp

@[simp] lemma trailing_ne_exited : (PosStatus.trailing = PosStatus.exited) = False := by
  simp

@[simp] lemma trailing_ne_active : (PosStatus.trailing = PosStatus.active) = False := by
  simp

@[simp] lemma exited_ne_active : (PosStatus.exited = PosStatus.active) = False := by
  simp

@[simp] lemma exited_ne_trailing : (PosStatus.exited = PosStatus.trailing) = False := by
  simp

end StatusSimp

@[simp] lemma findPos_setPos_self (l : List (String × Position)) (a : String)
    (p : Position) : findPos (setPos l a p) a = some p := by
  induction l with
  | nil => simp [setPos, findPos]
  | cons hd tl ih =>
      by_cases hk : hd.1 = a
      · simp [setPos, hk, findPos]
      · cases hd with
        | mk k q => simp_all [setPos, findPos]

open SimulatorDB

/-- C4: starting from entry 1.00 and size 250 under trailActivation 1.5,
trailDistance 0.10, stopLoss 0.15, the update at price 1.60 leaves the
position trailing with trailPrice 1.44, and the following update at price
1.40 closes it with reason trail, exitPrice 1.44 and pnl 110.00. -/
theorem C4_trail_scenario :
    (getPosition ((updatePosition scenarioDb "tok" (8/5) 1).1) "tok").map
        Position.status = some .trailing ∧
    (getPosition ((updatePosition scenarioDb "tok" (8/5) 1).1) "tok").map
        Position.trailPrice = some (some (36/25)) ∧
    (updatePosition ((updatePosition scenarioDb "tok" (8/5) 1).1) "tok" (7/5) 2).2
        = some (.closed .trail) ∧
    (getPosition ((updatePosition ((updatePosition scenarioDb "tok" (8/5) 1).1)
        "tok" (7/5) 2).1) "tok").map Position.exitPrice = some (some (36/25)) ∧
    (getPosition ((updatePosition ((updatePosition scenarioDb "tok" (8/5) 1).1)
        "tok" (7/5) 2).1) "tok").map Position.exitReason = some (some .trail) ∧
    (getPosition ((updatePosition ((updatePosition scenarioDb "tok" (8/5) 1).1)
        "tok" (7/5) 2).1) "tok").map Position.pnl = some 110 := by
  norm_num [updatePosition, peakStep, activateStep, closePosition, getPosition, findPos, setPos, jsOr,
    scenarioDb, scenarioConfig, freshDb, addPosition, getOpenPositions]

/-- C6: an update against an exited position is a complete no-op: it returns
none and leaves the whole document (the position and every stat) unchanged. -/
theorem C6_exited_noop (db : Db) (addr : String) (pos : Position) (P : ℚ)
    (now : ℕ) (h : getPosition db addr = some pos) (hst : pos.status = .exited) :
    updatePosition db addr P now = (db, none) := by
  unfold getPosition at h
  unfold updatePosition
  rw [h]
  simp [hst]

/-- Witness for C6 at a concrete exited position. -/
theorem C6_exited_noop_witness :
    updatePosition exitedDb "tok" 5 9 = (exitedDb, none) :=
  C6_exited_noop exitedDb "tok" exitedPos 5 9 rfl rfl

/-- C10: getSlippage returns 0 when liquidity is missing or zero, and
min(tradeSize / liquidity, 0.5) for positive liquidity. -/
theorem C10_slippage_guard (tradeSize l : ℚ) :
    getSlippage tradeSize none = 0 ∧
    getSlippage tradeSize (some 0) = 0 ∧
    (0 < l → getSlippage tradeSize (some l) = min (tradeSize / l) (1/2)) := by
  refine ⟨rfl, by simp [getSlippage], fun h => ?_⟩
  simp [getSlippage, ne_of_gt h]

/-- Witness for C10 at tradeSize 250 and liquidity 2500. -/
theorem C10_slippage_guard_witness :
    getSlippage 250 none = 0 ∧ getSlippage 250 (some 0) = 0 ∧
    getSlippage 250 (some 2500) = min ((250 : ℚ)/2500) (1/2) := by
  obtain ⟨h1, h2, h3⟩ := C10_slippage_guard 250 2500
  exact ⟨h1, h2, h3 (by norm_num)⟩

/-- C1: the retroactive slippage correction in the polling handler is a
no-op on stats.totalPnL, because the subtracted value reads the position
record whose pnl was already overwritten with the corrected figure. At a
stop-loss close of the base position at price 0.50 with liquidity 2500
(slippage 10 percent), the stored position pnl becomes -137.50 while
stats.totalPnL keeps the pre-slippage -37.50, so the cumulative stat does
not equal the sum of the closed positions pnl at save time. -/
theorem C1_slippage_correction_drift :
    closedPnlSum ((checkPositionStep baseDb "tok" (1/2) 2500 1).1) = -(275/2) ∧
    ((checkPositionStep baseDb "tok" (1/2) 2500 1).1).stats.totalPnL = -(75/2) ∧
    ¬ ((checkPositionStep baseDb "tok" (1/2) 2500 1).1).stats.totalPnL
        = closedPnlSum ((checkPositionStep baseDb "tok" (1/2) 2500 1).1) := by
  norm_num [checkPositionStep, getSlippage, updatePosition, peakStep, activateStep, closePosition,
    findPos, setPos, jsOr, baseDb, basePos, freshDb, closedPnlSum,
    getClosedPositions]

/-- C2: getStats sums the pnl field (always 0 for open positions) instead of
unrealizedPnL, so its totalPnL equals the stored stat alone and omits the
unrealized profit: after one update at price 1.20 the open position carries
unrealizedPnL 50, the spec prescribed total is 50, but getStats reports 0. -/
theorem C2_getStats_omits_unrealized :
    (getStats ((updatePosition baseDb "tok" (6/5) 1).1)).totalPnL = 0 ∧
    spec_totalPnL ((updatePosition baseDb "tok" (6/5) 1).1) = 50 ∧
    ¬ (getStats ((updatePosition baseDb "tok" (6/5) 1).1)).totalPnL
        = spec_totalPnL ((updatePosition baseDb "tok" (6/5) 1).1) := by
  norm_num [updatePosition, peakStep, activateStep, closePosition, baseDb, basePos, freshDb, findPos,
    setPos, jsOr, getStats, spec_totalPnL, getOpenPositions]

/-- C8 counterexample: a trailing position (entry 1.00, peak 2.00, trailPrice
1.90) updated at price 0.50 breaches both the trail price and the stop loss;
the update closes with reason stop_loss at exitPrice 0.85, not with reason
trail at the trail price, refuting the unconditional closing clause of C8. -/
theorem C8_counterexample :
    (1/2 : ℚ) ≤ 19/10 ∧
    trailingPos.trailPrice = some (19/10) ∧
    (updatePosition trailingDb "tok" (1/2) 1).2 = some (.closed .stop_loss) ∧
    ¬ (updatePosition trailingDb "tok" (1/2) 1).2 = some (.closed .trail) ∧
    (getPosition ((updatePosition trailingDb "tok" (1/2) 1).1) "tok").map
        Position.exitPrice = some (some (17/20)) ∧
    ¬ (17/20 : ℚ) = 19/10 := by
  norm_num [updatePosition, peakStep, activateStep, closePosition, getPosition, findPos, setPos, jsOr,
    trailingDb, trailingPos, basePos, freshDb]
  decide

/-- C9 counterexample: a pinned message that is the correctly named DB
document but whose content fails to download or parse leads load to fall
through and initialize a fresh document, although a pinned message exists —
refuting the clause that a fresh document is created only when no pinned
message exists at all. -/
theorem C9_counterexample :
    load (some (.document "trading-simulator-db.json" none)) 5
      = .ok (.freshInit (freshDb 5)) ∧
    ¬ (some (PinnedContent.document "trading-simulator-db.json" none)
        = (none : Option PinnedContent)) := by
  exact ⟨rfl, by simp⟩

/-- C3: for an open position whose update price breaches the stop-loss
threshold (P / entry at or below 1 - stopLoss, configured stopLoss nonzero),
the update closes the position with reason stop_loss at exitPrice entry *
(1 - stopLoss), regardless of the current status (active or trailing): the
stop-loss check runs before all peak and trailing logic. -/
theorem C3_stop_loss_first (db : Db) (addr : String) (pos : Position) (P : ℚ)
    (now : ℕ) (h : getPosition db addr = some pos)
    (hopen : pos.status ≠ .exited)
    (hsl0 : db.config.stopLoss ≠ 0)
    (hbreach : P / pos.entryPrice ≤ 1 - db.config.stopLoss) :
    (updatePosition db addr P now).2 = some (.closed .stop_loss) ∧
    (getPosition (updatePosition db addr P now).1 addr).map Position.exitPrice
      = some (some (pos.entryPrice * (1 - db.config.stopLoss))) ∧
    (getPosition (updatePosition db addr P now).1 addr).map Position.exitReason
      = some (some ExitReason.stop_loss) ∧
    (getPosition (updatePosition db addr P now).1 addr).map Position.status
      = some PosStatus.exited := by
  have hkey : updatePosition db addr P now
      = closePosition db addr (pos.entryPrice * (1 - db.config.stopLoss)) .stop_loss now := by
    unfold getPosition at h
    unfold updatePosition
    rw [h]
    simp [hopen, jsOr, hsl0, hbreach]
  rw [hkey]
  unfold getPosition
  unfold closePosition
  unfold getPosition at h
  rw [h]
  simp

/-- Witness for C3: the base position updated at price 0.80 under stopLoss
0.15 closes stop_loss at 0.85. -/
theorem C3_stop_loss_first_witness :
    (updatePosition baseDb "tok" (4/5) 7).2 = some (.closed .stop_loss) ∧
    (getPosition (updatePosition baseDb "tok" (4/5) 7).1 "tok").map Position.exitPrice
      = some (some (basePos.entryPrice * (1 - baseDb.config.stopLoss))) ∧
    (getPosition (updatePosition baseDb "tok" (4/5) 7).1 "tok").map Position.exitReason
      = some (some ExitReason.stop_loss) ∧
    (getPosition (updatePosition baseDb "tok" (4/5) 7).1 "tok").map Position.status
      = some PosStatus.exited :=
  C3_stop_loss_first baseDb "tok" basePos (4/5) 7 rfl (by decide)
    (by norm_num [baseDb, freshDb]) (by norm_num [baseDb, freshDb, basePos])

/-- C5: an intake request for an address already present in the positions
object (any status) or in the history log leaves the document unchanged and
returns one of the non-opening, non-error exists results. -/
theorem C5_no_reentry (db : Db) (addr chain symbol : String) (sp score : ℚ)
    (mid : Option ℕ) (lp : ℚ) (now : ℕ) (haddr : addr ≠ "")
    (hex : (getPosition db addr).isSome = true ∨
           db.history.any (fun hrec => hrec.address = addr) = true) :
    (newSignal db addr chain symbol sp score mid lp now).1 = db ∧
    ((newSignal db addr chain symbol sp score mid lp now).2 = .alreadyOpen ∨
     (newSignal db addr chain symbol sp score mid lp now).2 = .previouslyClosed ∨
     (newSignal db addr chain symbol sp score mid lp now).2 = .inHistory) := by
  unfold newSignal
  rw [if_neg haddr]
  cases hfp : findPos db.positions addr with
  | some existing =>
      by_cases hst : existing.status = .exited
      · simp [hst]
      · simp [hst]
  | none =>
      have hh : db.history.any (fun hrec => hrec.address = addr) = true := by
        rcases hex with hx | hx
        · exfalso
          unfold getPosition at hx
          rw [hfp] at hx
          simp at hx
        · exact hx
      simp [hh]

/-- Witness for C5: re-sending a signal for the already-open base position
leaves the document unchanged. -/
theorem C5_no_reentry_witness :
    (newSignal baseDb "tok" "sol" "TOK" 1 (1/2) none 2 9).1 = baseDb ∧
    ((newSignal baseDb "tok" "sol" "TOK" 1 (1/2) none 2 9).2 = .alreadyOpen ∨
     (newSignal baseDb "tok" "sol" "TOK" 1 (1/2) none 2 9).2 = .previouslyClosed ∨
     (newSignal baseDb "tok" "sol" "TOK" 1 (1/2) none 2 9).2 = .inHistory) :=
  C5_no_reentry baseDb "tok" "sol" "TOK" 1 (1/2) none 2 9 (by decide) (Or.inl rfl)

lemma peakStep_entry (pos : Position) (P : ℚ) (now : ℕ) :
    (peakStep pos P now).entryPrice = pos.entryPrice := by
  unfold peakStep
  split <;> rfl

lemma peakStep_peak (pos : Position) (P : ℚ) (now : ℕ) :
    pos.peakPrice ≤ (peakStep pos P now).peakPrice := by
  unfold peakStep
  split
  · exact le_of_lt (by assumption)
  · exact le_refl _

lemma peakStep_status (pos : Position) (P : ℚ) (now : ℕ) :
    (peakStep pos P now).status = pos.status := by
  unfold peakStep
  split <;> rfl

lemma activateStep_entry (config : Config) (pos : Position) (m : ℚ) :
    (activateStep config pos m).entryPrice = pos.entryPrice := by
  unfold activateStep
  split <;> rfl

lemma activateStep_peak (config : Config) (pos : Position) (m : ℚ) :
    (activateStep config pos m).peakPrice = pos.peakPrice := by
  unfold activateStep
  split <;> rfl

lemma activateStep_of_trailing (config : Config) (pos : Position) (m : ℚ)
    (h : pos.status = .trailing) : activateStep config pos m = pos := by
  unfold activateStep
  rw [if_neg]
  simp [h]

lemma closePosition_find (db : Db) (addr : String) (pos : Position) (xp : ℚ)
    (reason : ExitReason) (now : ℕ) (h : findPos db.positions addr = some pos) :
    findPos (closePosition db addr xp reason now).1.positions addr
      = some { pos with
          status := .exited
          exitPrice := some xp
          exitTime := some now
          exitReason := some reason
          pnl := (xp / pos.entryPrice - 1) * pos.size } := by
  unfold closePosition
  rw [h]
  simp

lemma closePosition_snd (db : Db) (addr : String) (pos : Position) (xp : ℚ)
    (reason : ExitReason) (now : ℕ) (h : findPos db.positions addr = some pos) :
    (closePosition db addr xp reason now).2 = some (.closed reason) := by
  unfold closePosition
  rw [h]

lemma updatePosition_peak_step (db : Db) (addr : String) (P : ℚ) (now : ℕ)
    (pos : Position) (h : findPos db.positions addr = some pos) :
    ∃ pos1, findPos (updatePosition db addr P now).1.positions addr = some pos1 ∧
      pos.peakPrice ≤ pos1.peakPrice ∧ pos1.entryPrice = pos.entryPrice := by
  unfold updatePosition
  rw [h]
  by_cases hex : pos.status = .exited
  · exact ⟨pos, by simpa [hex] using h, le_refl _, rfl⟩
  · simp only [hex, if_false]
    by_cases hsl : P / pos.entryPrice ≤ 1 - jsOr db.config.stopLoss (1/4)
    · rw [if_pos hsl]
      exact ⟨_, closePosition_find db addr pos _ _ now h, le_refl _, rfl⟩
    · rw [if_neg hsl]
      set p1 := activateStep db.config (peakStep pos P now) (P / pos.entryPrice) with hp1
      have hent1 : p1.entryPrice = pos.entryPrice := by
        rw [hp1, activateStep_entry, peakStep_entry]
      have hpk1 : pos.peakPrice ≤ p1.peakPrice := by
        rw [hp1, activateStep_peak]
        exact peakStep_peak pos P now
      by_cases htr : p1.status = .trailing
      · rw [if_pos htr]
        by_cases hcl : P ≤ p1.peakPrice * (1 - db.config.trailDistance)
        · rw [if_pos hcl]
          exact ⟨_, closePosition_find _ addr
            { p1 with trailPrice := some (p1.peakPrice * (1 - db.config.trailDistance)) }
            _ _ now (findPos_setPos_self _ _ _), hpk1, hent1⟩
        · rw [if_neg hcl]
          exact ⟨_, findPos_setPos_self _ _ _, hpk1, hent1⟩
      · rw [if_neg htr]
        exact ⟨_, findPos_setPos_self _ _ _, hpk1, hent1⟩

lemma updateMany_peak (db : Db) (addr : String) (evs : List (ℚ × ℕ)) (pos : Position)
    (h : findPos db.positions addr = some pos) :
    ∃ pos1, findPos (updateMany db addr evs).positions addr = some pos1 ∧
      pos.peakPrice ≤ pos1.peakPrice ∧ pos1.entryPrice = pos.entryPrice := by
  induction evs generalizing db pos with
  | nil => exact ⟨pos, h, le_refl _, rfl⟩
  | cons e rest ih =>
      obtain ⟨q, hq, hle, hent⟩ := updatePosition_peak_step db addr e.1 e.2 pos h
      obtain ⟨r, hr, hle2, hent2⟩ := ih _ _ hq
      refine ⟨r, ?_, le_trans hle hle2, hent2.trans hent⟩
      simpa [updateMany] using hr

/-- C7: peakPrice is initialized to entryPrice by addPosition (so it starts
with peakPrice equal to entryPrice), every single update leaves entryPrice
unchanged and never decreases peakPrice (preserving peakPrice at or above
entryPrice), and the same holds across any sequence of updates. -/
theorem C7_peak_monotone :
    (∀ db addr data now,
      (getPosition (addPosition db addr data now) addr).map Position.peakPrice
          = some data.entryPrice ∧
      (getPosition (addPosition db addr data now) addr).map Position.entryPrice
          = some data.entryPrice) ∧
    (∀ db addr P now pos, getPosition db addr = some pos →
      ∃ pos1, getPosition (updatePosition db addr P now).1 addr = some pos1 ∧
        pos.peakPrice ≤ pos1.peakPrice ∧ pos1.entryPrice = pos.entryPrice ∧
        (pos.entryPrice ≤ pos.peakPrice → pos1.entryPrice ≤ pos1.peakPrice)) ∧
    (∀ db addr evs pos, getPosition db addr = some pos →
      ∃ pos1, getPosition (updateMany db addr evs) addr = some pos1 ∧
        pos.peakPrice ≤ pos1.peakPrice ∧ pos1.entryPrice = pos.entryPrice ∧
        (pos.entryPrice ≤ pos.peakPrice → pos1.entryPrice ≤ pos1.peakPrice)) := by
  refine ⟨?_, ?_, ?_⟩
  · intro db addr data now
    constructor <;>
      simp [addPosition, getPosition, getOpenPositions, findPos_setPos_self]
  · intro db addr P now pos h
    obtain ⟨p1, hf, hle, hent⟩ := updatePosition_peak_step db addr P now pos h
    exact ⟨p1, hf, hle, hent, fun hi => by rw [hent]; exact le_trans hi hle⟩
  · intro db addr evs pos h
    obtain ⟨p1, hf, hle, hent⟩ := updateMany_peak db addr evs pos h
    exact ⟨p1, hf, hle, hent, fun hi => by rw [hent]; exact le_trans hi hle⟩

/-- Witness for C7: the base position run through the price path 2.00 then
1.50 keeps entryPrice and never lowers peakPrice. -/
theorem C7_peak_monotone_witness :
    ∃ pos1, getPosition (updateMany baseDb "tok" [(2, 1), (3/2, 2)]) "tok" = some pos1 ∧
      basePos.peakPrice ≤ pos1.peakPrice ∧ pos1.entryPrice = basePos.entryPrice ∧
      (basePos.entryPrice ≤ basePos.peakPrice → pos1.entryPrice ≤ pos1.peakPrice) :=
  C7_peak_monotone.2.2 baseDb "tok" [(2, 1), (3/2, 2)] basePos rfl

/-- C8 amended: for a trailing position whose stored trailPrice equals
peakPrice * (1 - trailDistance) (with trailDistance in [0, 1], nonnegative
peak, configured stopLoss nonzero), an update whose price does NOT breach
the stop loss recomputes trailPrice from the updated peak (so it never
decreases), and such an update with price at or below the stored trailPrice
closes the position with reason trail at exitPrice equal to that trailPrice.
When the stop loss is simultaneously breached the close is stop_loss at the
stop price instead (see the counterexample). -/
theorem C8_trail_monotone_amended (db : Db) (addr : String) (pos : Position)
    (P : ℚ) (now : ℕ)
    (h : getPosition db addr = some pos)
    (hst : pos.status = .trailing)
    (hsl0 : db.config.stopLoss ≠ 0)
    (hnostop : 1 - db.config.stopLoss < P / pos.entryPrice)
    (htd0 : 0 ≤ db.config.trailDistance) (htd1 : db.config.trailDistance ≤ 1)
    (hpk : 0 ≤ pos.peakPrice)
    (htp : pos.trailPrice = some (pos.peakPrice * (1 - db.config.trailDistance))) :
    ∃ pos1 t0, getPosition (updatePosition db addr P now).1 addr = some pos1 ∧
      pos.trailPrice = some t0 ∧
      pos1.trailPrice = some (pos1.peakPrice * (1 - db.config.trailDistance)) ∧
      t0 ≤ pos1.peakPrice * (1 - db.config.trailDistance) ∧
      (P ≤ t0 →
        (updatePosition db addr P now).2 = some (.closed .trail) ∧
        pos1.exitPrice = some t0) := by
  have hex : ¬ pos.status = .exited := by rw [hst]; simp
  have hsl : ¬ (P / pos.entryPrice ≤ 1 - jsOr db.config.stopLoss (1/4)) := by
    rw [jsOr, if_neg hsl0]
    exact not_le.mpr hnostop
  have htd : 0 ≤ 1 - db.config.trailDistance := by linarith
  have hact : activateStep db.config (peakStep pos P now) (P / pos.entryPrice)
      = peakStep pos P now :=
    activateStep_of_trailing _ _ _ (by rw [peakStep_status]; exact hst)
  have hpkmono : pos.peakPrice ≤ (peakStep pos P now).peakPrice := peakStep_peak pos P now
  have hmono : pos.peakPrice * (1 - db.config.trailDistance)
      ≤ (peakStep pos P now).peakPrice * (1 - db.config.trailDistance) :=
    mul_le_mul_of_nonneg_right hpkmono htd
  have hpeq : P ≤ pos.peakPrice * (1 - db.config.trailDistance) → peakStep pos P now = pos := by
    intro hP
    unfold peakStep
    rw [if_neg]
    push_neg
    calc P ≤ pos.peakPrice * (1 - db.config.trailDistance) := hP
      _ ≤ pos.peakPrice := mul_le_of_le_one_right hpk (by linarith)
  unfold getPosition at h
  unfold getPosition
  unfold updatePosition
  rw [h]
  simp only [hex, if_false]
  rw [if_neg hsl, hact,
    if_pos (show (peakStep pos P now).status = .trailing by rw [peakStep_status]; exact hst)]
  by_cases hcl : P ≤ (peakStep pos P now).peakPrice * (1 - db.config.trailDistance)
  · rw [if_pos hcl]
    refine ⟨_, pos.peakPrice * (1 - db.config.trailDistance), closePosition_find _ addr _ _ _ now
      (findPos_setPos_self _ _ _), htp, ?_, ?_, ?_⟩
    · simp
    · simpa using hmono
    · intro hP
      refine ⟨closePosition_snd _ addr _ _ _ now (findPos_setPos_self _ _ _), ?_⟩
      simp [hpeq hP]
  · rw [if_neg hcl]
    refine ⟨_, pos.peakPrice * (1 - db.config.trailDistance), findPos_setPos_self _ _ _,
      htp, ?_, ?_, ?_⟩
    · simp
    · simpa using hmono
    · intro hP
      exact absurd (by rw [hpeq hP]; exact hP) hcl

/-- Witness for C8 amended: the trailing position (peak 2.00, trailPrice
1.90) updated at price 1.85 under stopLoss 0.15 and trailDistance 0.05. -/
theorem C8_trail_monotone_amended_witness :
    ∃ pos1 t0, getPosition (updatePosition trailingDb "tok" (37/20) 4).1 "tok" = some pos1 ∧
      trailingPos.trailPrice = some t0 ∧
      pos1.trailPrice = some (pos1.peakPrice * (1 - trailingDb.config.trailDistance)) ∧
      t0 ≤ pos1.peakPrice * (1 - trailingDb.config.trailDistance) ∧
      ((37/20 : ℚ) ≤ t0 →
        (updatePosition trailingDb "tok" (37/20) 4).2 = some (.closed .trail) ∧
        pos1.exitPrice = some t0) :=
  C8_trail_monotone_amended trailingDb "tok" trailingPos (37/20) 4 rfl rfl
    (by norm_num [trailingDb, freshDb])
    (by norm_num [trailingDb, freshDb, trailingPos, basePos])
    (by norm_num [trailingDb, freshDb])
    (by norm_num [trailingDb, freshDb])
    (by norm_num [trailingPos, basePos])
    (by norm_num [trailingDb, trailingPos, basePos, freshDb])

/-- C9 amended: a pinned document with a wrong file name, or a pinned
non-document message, makes load fail with an error (never initializing or
overwriting); no pinned message at all initializes a fresh document; a
successful load of an existing document only happens from the correctly
named pinned document; and a fresh document is created only when no pinned
message exists, or when the pinned message is the correctly named DB
document whose content fails to download or parse (the fall-through case
shown by the counterexample). -/
theorem C9_load_amended :
    (∀ fileName content now, fileName ≠ "trading-simulator-db.json" →
      ∃ e, load (some (.document fileName content)) now = .error e) ∧
    (∀ now, ∃ e, load (some .nonDocument) now = .error e) ∧
    (∀ now, load none now = .ok (.freshInit (freshDb now))) ∧
    (∀ db0 pinned now, load pinned now = .ok (.loaded db0) →
      pinned = some (.document "trading-simulator-db.json" (some db0))) ∧
    (∀ db0 pinned now, load pinned now = .ok (.freshInit db0) →
      pinned = none ∨ pinned = some (.document "trading-simulator-db.json" none)) := by
  refine ⟨?_, ?_, ?_, ?_, ?_⟩
  · intro fn c now hfn
    refine ⟨"Pinned message is not the simulator DB. Please unpin it or re-pin the DB file.", ?_⟩
    simp [load, hfn]
  · intro now
    exact ⟨_, rfl⟩
  · intro now
    rfl
  · intro db0 pinned now hld
    match pinned with
    | none => simp [load] at hld
    | some .nonDocument => simp [load] at hld
    | some (.document fn none) =>
        by_cases hfn : fn = "trading-simulator-db.json"
        · subst hfn
          simp [load] at hld
        · simp [load, hfn] at hld
    | some (.document fn (some d)) =>
        by_cases hfn : fn = "trading-simulator-db.json"
        · subst hfn
          simp [load] at hld
          rw [hld]
        · simp [load, hfn] at hld
  · intro db0 pinned now hld
    match pinned with
    | none => exact Or.inl rfl
    | some .nonDocument => simp [load] at hld
    | some (.document fn none) =>
        by_cases hfn : fn = "trading-simulator-db.json"
        · subst hfn
          exact Or.inr rfl
        · simp [load, hfn] at hld
    | some (.document fn (some d)) =>
        by_cases hfn : fn = "trading-simulator-db.json"
        · subst hfn
          simp [load] at hld
        · simp [load, hfn] at hld

/-- Witness for C9 amended: a pinned document named something-else.json makes
load fail with an error. -/
theorem C9_load_amended_witness :
    ∃ e, load (some (.document "something-else.json" none)) 3 = .error e :=
  C9_load_amended.1 "something-else.json" none 3 (by decide)

end TradingSim
